import Mathlib

/-!
Shallow embedding of the `ToolTip` widget from `main.py` (a tkinter hover
tooltip controller): the coordinate-placement algorithm `coords`, the option
dictionary and `configure`, and the show/hide scheduling state machine
(`enter` / `leave` / `motion` / `_schedule` / `_unschedule` / `_show` /
`_hide`) with the toolkit's timer and popup-window facilities made explicit.
-/

namespace ToolTip

/-- Embeds `ToolTip.coords` (main.py lines 183-208).  Arguments are the values
the method reads from the toolkit: `follow_mouse` is `self._follow_mouse`,
`twx`/`twy` are `tw.winfo_reqwidth()`/`tw.winfo_reqheight()`, `w`/`h` are the
screen width/height, `pointerx`/`pointery` the pointer's screen position, and
`rooty`/`masterheight` are `self.master.winfo_rooty()`/`winfo_height()`.
The x coordinate uses Python 3 true division `twx / 2`, so it is a rational
(an integer or a half-integer; such values are exact in Python floats, so ℚ
models the float arithmetic exactly here).  The y coordinate is integral. -/
def coords (follow_mouse : Bool) (twx twy w h pointerx pointery rooty masterheight : ℤ) :
    ℚ × ℤ :=
  let y : ℤ :=
    if follow_mouse then
      -- y = tw.winfo_pointery() + 20; if y + twy > h: y = y - twy - 30
      let y0 := pointery + 20
      if y0 + twy > h then y0 - twy - 30 else y0
    else
      -- y = rooty + height + 3; if y + twy > h: y = rooty - twy - 3
      let y0 := rooty + masterheight + 3
      if y0 + twy > h then rooty - twy - 3 else y0
  -- x = tw.winfo_pointerx() - twx / 2
  let x0 : ℚ := (pointerx : ℚ) - (twx : ℚ) / 2
  -- if x < 0: x = 0; elif x + twx > w: x = w - twx
  let x : ℚ := if x0 < 0 then 0 else if x0 + (twx : ℚ) > (w : ℚ) then (w : ℚ) - (twx : ℚ) else x0
  (x, y)

/-! ## The option dictionary and `configure` -/

/-- A Python value stored in the `_opts` dictionary: a string, an integer, or
`None` (strings cover the color/relief/anchor options; integers cover the
numeric and the 0/1 options; `None` covers `font`/`textvariable` defaults). -/
inductive Val where
  | str (s : String)
  | int (n : ℤ)
  | noneV
deriving DecidableEq

/-- The sixteen recognized option keys of the `_opts` dictionary built in
`ToolTip.__init__` (main.py lines 97-114).  `configure` only ever assigns to
existing keys, so the key set is fixed for the life of the controller. -/
inductive OptKey where
  | anchor | bd | bg | delay | fg | follow_mouse | font | justify
  | padx | pady | relief | state | text | textvariable | width | wraplength
deriving DecidableEq

/-- The `_opts` dictionary: one value per recognized key. -/
structure Opts where
  anchor : Val
  bd : Val
  bg : Val
  delay : Val
  fg : Val
  follow_mouse : Val
  font : Val
  justify : Val
  padx : Val
  pady : Val
  relief : Val
  state : Val
  text : Val
  textvariable : Val
  width : Val
  wraplength : Val
deriving DecidableEq

/-- The default `_opts` dictionary from `__init__`, with the `text` and
`delay` constructor parameters filled in (main.py lines 97-114). -/
def defaultOpts (text delay : Val) : Opts :=
  { anchor := .str "center"
    bd := .int 1
    bg := .str "lightyellow"
    delay := delay
    fg := .str "black"
    follow_mouse := .int 0
    font := .noneV
    justify := .str "left"
    padx := .int 4
    pady := .int 2
    relief := .str "solid"
    state := .str "normal"
    text := text
    textvariable := .noneV
    width := .int 0
    wraplength := .int 150 }

/-- The membership test `key in self._opts` (main.py line 128): maps a string
key to the option field it names, or `none` for an unrecognized key. -/
def recognized (k : String) : Option OptKey :=
  if k = "anchor" then some .anchor
  else if k = "bd" then some .bd
  else if k = "bg" then some .bg
  else if k = "delay" then some .delay
  else if k = "fg" then some .fg
  else if k = "follow_mouse" then some .follow_mouse
  else if k = "font" then some .font
  else if k = "justify" then some .justify
  else if k = "padx" then some .padx
  else if k = "pady" then some .pady
  else if k = "relief" then some .relief
  else if k = "state" then some .state
  else if k = "text" then some .text
  else if k = "textvariable" then some .textvariable
  else if k = "width" then some .width
  else if k = "wraplength" then some .wraplength
  else none

/-- The dictionary assignment `self._opts[key] = opts[key]` (main.py line 129). -/
def optsSet (o : Opts) : OptKey → Val → Opts
  | .anchor, v => { o with anchor := v }
  | .bd, v => { o with bd := v }
  | .bg, v => { o with bg := v }
  | .delay, v => { o with delay := v }
  | .fg, v => { o with fg := v }
  | .follow_mouse, v => { o with follow_mouse := v }
  | .font, v => { o with font := v }
  | .justify, v => { o with justify := v }
  | .padx, v => { o with padx := v }
  | .pady, v => { o with pady := v }
  | .relief, v => { o with relief := v }
  | .state, v => { o with state := v }
  | .text, v => { o with text := v }
  | .textvariable, v => { o with textvariable := v }
  | .width, v => { o with width := v }
  | .wraplength, v => { o with wraplength := v }

/-- An exception propagating out of `configure`.  On an unrecognized key the
source (main.py lines 131-132) binds the message string
`'KeyError: Unknown option: "%s"' % key` to a local variable named `KeyError`
(shadowing the builtin) and executes `raise` on that plain `str`; in
Python 3 raising a non-exception object raises
`TypeError: exceptions must derive from BaseException`, so the constructed
message — the only place the key name appears — is discarded. -/
inductive PyExc where
  | typeError (msg : String)
deriving DecidableEq

/-- The value a Python call returns: `None`, or a dictionary of options. -/
inductive PyRet where
  | noneV
  | dict (o : Opts)
deriving DecidableEq

/-- `true` iff the returned value is a dictionary (and not `None`). -/
def PyRet.isDict : PyRet → Bool
  | .noneV => false
  | .dict _ => true

/-- Embeds `ToolTip.configure` (main.py lines 126-132).  The `**opts` keyword
arguments are the association list `kvs`, iterated in order; a recognized key
is assigned into the dictionary, an unrecognized key aborts the loop with the
exception described at `PyExc` (keys before it stay applied — the in-place
mutation is modelled by threading the updated dictionary).  The method body
has no `return` statement, so on success the call returns Python `None`,
paired here with the final dictionary state. -/
def configure (o : Opts) : List (String × Val) → Except PyExc (Opts × PyRet)
  | [] => .ok (o, .noneV)
  | (k, v) :: rest =>
    match recognized k with
    | some key => configure (optsSet o key v) rest
    | none => .error (.typeError "exceptions must derive from BaseException")

/-! ## The show/hide scheduling state machine

The controller's mutable fields (`_opts['state']`, `_opts['follow_mouse']`,
`_follow_mouse`, `_tipwindow`, `_id`) together with the toolkit facilities the
handlers call (`master.after` / `after_cancel` for timers, `tk.Toplevel` /
`destroy` for popup windows) are made explicit.  Timer handles and popup
windows are numbered consecutively so that `after` always returns a fresh
handle, as tkinter does. -/

/-- The `_opts['state']` option value as consulted by `_schedule`/`_show`:
the code compares it to the string `'disabled'`. -/
inductive TipState where
  | normal
  | disabled
deriving DecidableEq

/-- The controller's own mutable fields. -/
structure Ctrl where
  /-- `self._opts['state']`. -/
  stateOpt : TipState
  /-- `self._opts['follow_mouse']`, the dictionary entry `configure` can write. -/
  optsFollowMouse : Bool
  /-- `self._follow_mouse`, the instance field set once in `__init__` and read
  by `motion` and `coords`. -/
  followMouse : Bool
  /-- `self._tipwindow`: the visible popup window, if any. -/
  tipwindow : Option ℕ
  /-- `self._id`: the last timer handle obtained from `master.after`, if any
  (it may be stale: `_show` does not clear it when the timer fires). -/
  tid : Option ℕ
deriving DecidableEq

/-- The controller plus the toolkit state it interacts with. -/
structure Sys where
  ctrl : Ctrl
  /-- Timer handles scheduled via `master.after` and neither cancelled nor
  fired yet. -/
  pending : List ℕ
  /-- The next fresh timer handle. -/
  nextT : ℕ
  /-- Popup windows currently in existence for this controller. -/
  popups : List ℕ
  /-- The next fresh popup-window number. -/
  nextP : ℕ
  /-- How many popup windows have ever been created (`tk.Toplevel` calls). -/
  created : ℕ
deriving DecidableEq

/-- `master.after_cancel(id)`: the toolkit drops the timer if still pending
(cancelling an already-fired or unknown handle is a no-op). -/
def afterCancel (s : Sys) (hdl : ℕ) : Sys :=
  { s with pending := s.pending.filter (· ≠ hdl) }

/-- Embeds `ToolTip._unschedule` (main.py lines 152-156): read `self._id`,
set it to `None`, and cancel the read handle if it was set. -/
def unschedule (s : Sys) : Sys :=
  let id := s.ctrl.tid
  let s' := { s with ctrl := { s.ctrl with tid := none } }
  match id with
  | some hdl => afterCancel s' hdl
  | none => s'

/-- Embeds `ToolTip._schedule` (main.py lines 146-150): unschedule, return
early when `state` is `'disabled'`, else `self._id = master.after(delay, _show)`
— the toolkit hands out a fresh handle and remembers it as pending. -/
def schedule (s : Sys) : Sys :=
  let s' := unschedule s
  if s'.ctrl.stateOpt = .disabled then s'
  else
    { s' with
      ctrl := { s'.ctrl with tid := some s'.nextT }
      pending := s'.pending ++ [s'.nextT]
      nextT := s'.nextT + 1 }

/-- Embeds `ToolTip._hide` (main.py lines 177-181): read `self._tipwindow`,
set it to `None`, and destroy the read window if there was one. -/
def hideTip (s : Sys) : Sys :=
  let tw := s.ctrl.tipwindow
  let s' := { s with ctrl := { s.ctrl with tipwindow := none } }
  match tw with
  | some p => { s' with popups := s'.popups.filter (· ≠ p) }
  | none => s'

/-- Embeds `ToolTip._show` (main.py lines 158-175), the delayed-appearance
callback: when `state` is `'disabled'`, unschedule and return; otherwise, if
no popup window exists, create a fresh one, render and position it
(geometry effects are outside this state model) and record it in
`self._tipwindow`; if a popup already exists, do nothing. -/
def showTip (s : Sys) : Sys :=
  if s.ctrl.stateOpt = .disabled then unschedule s
  else
    match s.ctrl.tipwindow with
    | some _ => s
    | none =>
      { s with
        ctrl := { s.ctrl with tipwindow := some s.nextP }
        popups := s.popups ++ [s.nextP]
        nextP := s.nextP + 1
        created := s.created + 1 }

/-- An observable event delivered to the controller.  `timerFire hdl` is the
toolkit invoking the `_show` callback of pending timer `hdl`; the two
`config*` events are `configure` calls writing the option keys that the state
machine reads (other recognized keys do not affect scheduling). -/
inductive Ev where
  | enter
  | leave
  | buttonPress
  | motion
  | timerFire (hdl : ℕ)
  | configState (st : TipState)
  | configFollowMouse (b : Bool)
deriving DecidableEq

/-- A timer firing: tkinter removes the timer from the pending queue and then
invokes its callback (`_show`).  A handle that is not pending cannot fire. -/
def fire (s : Sys) (hdl : ℕ) : Sys :=
  if hdl ∈ s.pending then showTip { s with pending := s.pending.filter (· ≠ hdl) }
  else s

/-- One event step.  `enter` runs `self._schedule()` (main.py line 135);
`leave` and `buttonPress` are both bound to `self.leave`, which runs
`self._unschedule()` then `self._hide()` (lines 118-120, 137-139); `motion`
repositions the popup via `coords` when `_tipwindow` and `_follow_mouse` are
set (lines 141-144) and changes none of the state modelled here. -/
def step (s : Sys) : Ev → Sys
  | .enter => schedule s
  | .leave => hideTip (unschedule s)
  | .buttonPress => hideTip (unschedule s)
  | .motion => s
  | .timerFire hdl => fire s hdl
  | .configState st => { s with ctrl := { s.ctrl with stateOpt := st } }
  | .configFollowMouse b => { s with ctrl := { s.ctrl with optsFollowMouse := b } }

/-- Run a sequence of events. -/
def run (s : Sys) : List Ev → Sys
  | [] => s
  | e :: es => run (step s e) es

/-- The state after `ToolTip.__init__` (main.py lines 95-124): the merged
options give `follow_mouse` = `fm` and `state` = `st`; `_tipwindow` and `_id`
start as `None`; `self._follow_mouse` is fixed from `_opts['follow_mouse']`;
no timers are pending and no popup windows exist. -/
def init (fm : Bool) (st : TipState) : Sys :=
  { ctrl :=
      { stateOpt := st
        optsFollowMouse := fm
        followMouse := fm
        tipwindow := none
        tid := none }
    pending := []
    nextT := 0
    popups := []
    nextP := 0
    created := 0 }

/-- `true` iff the `state` option reads `'disabled'` at the moment of every
`enter` event and every timer firing in the sequence. -/
def disabledAt (s : Sys) : List Ev → Bool
  | [] => true
  | e :: es =>
    (match e with
     | .enter => decide (s.ctrl.stateOpt = .disabled)
     | .timerFire _ => decide (s.ctrl.stateOpt = .disabled)
     | _ => true)
    && disabledAt (step s e) es

/-- Invariant relating the controller's `_id` field to the toolkit's pending
queue: at most the timer named by `_id` is pending, and any handle stored in
`_id` was obtained from `after`, hence is below the fresh-handle counter. -/
def TimerInv (s : Sys) : Prop :=
  (s.pending = [] ∨ ∃ hdl, s.ctrl.tid = some hdl ∧ s.pending = [hdl]) ∧
  ∀ hdl, s.ctrl.tid = some hdl → hdl < s.nextT

/-- Invariant relating `_tipwindow` to the set of existing popup windows:
the controller's popups are exactly the window `_tipwindow` points to. -/
def PopupInv (s : Sys) : Prop :=
  (s.ctrl.tipwindow = none ∧ s.popups = []) ∨
  ∃ p, s.ctrl.tipwindow = some p ∧ s.popups = [p]

/-! ## Structural lemmas about the handlers -/

theorem afterCancel_ctrl (s : Sys) (hdl : ℕ) : (afterCancel s hdl).ctrl = s.ctrl := rfl

theorem afterCancel_nextT (s : Sys) (hdl : ℕ) : (afterCancel s hdl).nextT = s.nextT := rfl

theorem unschedule_ctrl (s : Sys) : (unschedule s).ctrl = { s.ctrl with tid := none } := by
  unfold unschedule
  cases s.ctrl.tid <;> rfl

theorem unschedule_pending (s : Sys) :
    (unschedule s).pending =
      match s.ctrl.tid with
      | some hdl => s.pending.filter (· ≠ hdl)
      | none => s.pending := by
  unfold unschedule
  cases s.ctrl.tid <;> rfl

theorem unschedule_nextT (s : Sys) : (unschedule s).nextT = s.nextT := by
  unfold unschedule
  cases s.ctrl.tid <;> rfl

theorem unschedule_popups (s : Sys) : (unschedule s).popups = s.popups := by
  unfold unschedule
  cases s.ctrl.tid <;> rfl

theorem unschedule_nextP (s : Sys) : (unschedule s).nextP = s.nextP := by
  unfold unschedule
  cases s.ctrl.tid <;> rfl

theorem unschedule_created (s : Sys) : (unschedule s).created = s.created := by
  unfold unschedule
  cases s.ctrl.tid <;> rfl

theorem hideTip_ctrl (s : Sys) : (hideTip s).ctrl = { s.ctrl with tipwindow := none } := by
  unfold hideTip
  cases s.ctrl.tipwindow <;> rfl

theorem hideTip_pending (s : Sys) : (hideTip s).pending = s.pending := by
  unfold hideTip
  cases s.ctrl.tipwindow <;> rfl

theorem hideTip_nextT (s : Sys) : (hideTip s).nextT = s.nextT := by
  unfold hideTip
  cases s.ctrl.tipwindow <;> rfl

theorem hideTip_popups (s : Sys) :
    (hideTip s).popups =
      match s.ctrl.tipwindow with
      | some p => s.popups.filter (· ≠ p)
      | none => s.popups := by
  unfold hideTip
  cases s.ctrl.tipwindow <;> rfl

theorem hideTip_created (s : Sys) : (hideTip s).created = s.created := by
  unfold hideTip
  cases s.ctrl.tipwindow <;> rfl

theorem run_nil (s : Sys) : run s [] = s := rfl

theorem run_cons (s : Sys) (e : Ev) (es : List Ev) : run s (e :: es) = run (step s e) es := rfl

/-- Every event step leaves `self._follow_mouse` untouched: no handler ever
assigns to it after `__init__`. -/
theorem step_followMouse (s : Sys) (e : Ev) :
    (step s e).ctrl.followMouse = s.ctrl.followMouse := by
  cases e with
  | enter =>
    show (schedule s).ctrl.followMouse = _
    simp only [schedule]
    split <;> simp [unschedule_ctrl]
  | leave => simp [step, hideTip_ctrl, unschedule_ctrl]
  | buttonPress => simp [step, hideTip_ctrl, unschedule_ctrl]
  | motion => rfl
  | timerFire hdl =>
    show (fire s hdl).ctrl.followMouse = _
    unfold fire
    by_cases hm : hdl ∈ s.pending
    · simp only [hm, if_pos]
      unfold showTip
      by_cases hd : s.ctrl.stateOpt = TipState.disabled
      · simp [hd, unschedule_ctrl]
      · simp only [hd, if_neg]
        cases s.ctrl.tipwindow <;> simp
    · simp [hm]
  | configState st => rfl
  | configFollowMouse b => rfl

/-! ## Invariant preservation -/

theorem timerInv_init (fm : Bool) (st : TipState) : TimerInv (init fm st) := by
  refine ⟨Or.inl rfl, ?_⟩
  intro hdl h
  simp [init] at h

theorem popupInv_init (fm : Bool) (st : TipState) : PopupInv (init fm st) :=
  Or.inl ⟨rfl, rfl⟩

theorem unschedule_pending_of_inv (s : Sys) (h : TimerInv s) : (unschedule s).pending = [] := by
  obtain ⟨h1, -⟩ := h
  rw [unschedule_pending]
  rcases h1 with hp | ⟨hdl, ht, hp⟩
  · cases htid : s.ctrl.tid <;> simp [hp]
  · rw [ht, hp]
    simp

theorem timerInv_step (s : Sys) (e : Ev) (h : TimerInv s) : TimerInv (step s e) := by
  obtain ⟨h1, h2⟩ := h
  cases e with
  | enter =>
    show TimerInv (schedule s)
    have hup : (unschedule s).pending = [] := unschedule_pending_of_inv s ⟨h1, h2⟩
    simp only [schedule]
    split
    · refine ⟨Or.inl hup, ?_⟩
      intro hdl hh
      simp [unschedule_ctrl] at hh
    · refine ⟨Or.inr ⟨(unschedule s).nextT, rfl, ?_⟩, ?_⟩
      · rw [hup]
        rfl
      · intro hdl hh
        have : hdl = (unschedule s).nextT := by simpa using hh.symm
        simp [this]
  | leave =>
    show TimerInv (hideTip (unschedule s))
    have hup : (unschedule s).pending = [] := unschedule_pending_of_inv s ⟨h1, h2⟩
    refine ⟨Or.inl ?_, ?_⟩
    · rw [hideTip_pending, hup]
    · intro hdl hh
      simp [hideTip_ctrl, unschedule_ctrl] at hh
  | buttonPress =>
    show TimerInv (hideTip (unschedule s))
    have hup : (unschedule s).pending = [] := unschedule_pending_of_inv s ⟨h1, h2⟩
    refine ⟨Or.inl ?_, ?_⟩
    · rw [hideTip_pending, hup]
    · intro hdl hh
      simp [hideTip_ctrl, unschedule_ctrl] at hh
  | motion => exact ⟨h1, h2⟩
  | timerFire hdl =>
    show TimerInv (fire s hdl)
    unfold fire
    split
    case isTrue hm =>
      rcases h1 with hp | ⟨hdl0, ht, hp⟩
      · rw [hp] at hm
        simp at hm
      · rw [hp] at hm
        have hh : hdl = hdl0 := by simpa using hm
        subst hh
        have hfil : s.pending.filter (· ≠ hdl) = [] := by
          rw [hp]
          simp
        unfold showTip
        split
        · -- state disabled: _show unschedules and returns
          refine ⟨Or.inl ?_, ?_⟩
          · rw [unschedule_pending]
            show (match ({ s with pending := s.pending.filter (· ≠ hdl) } : Sys).ctrl.tid with
              | some hdl' => (s.pending.filter (· ≠ hdl)).filter (· ≠ hdl')
              | none => s.pending.filter (· ≠ hdl)) = []
            rw [show ({ s with pending := s.pending.filter (· ≠ hdl) } : Sys).ctrl.tid =
              s.ctrl.tid from rfl, ht, hfil]
            rfl
          · intro hdl' hh
            simp [unschedule_ctrl] at hh
        · split
          · -- a popup is already visible: nothing happens
            refine ⟨Or.inl hfil, ?_⟩
            intro hdl' hh
            have : hdl' = hdl := by
              have : s.ctrl.tid = some hdl' := hh
              rw [ht] at this
              simpa using this.symm
            rw [this]
            exact h2 hdl ht
          · -- popup created; timer bookkeeping untouched
            refine ⟨Or.inl hfil, ?_⟩
            intro hdl' hh
            have : hdl' = hdl := by
              have : s.ctrl.tid = some hdl' := hh
              rw [ht] at this
              simpa using this.symm
            rw [this]
            exact h2 hdl ht
    case isFalse hm => exact ⟨h1, h2⟩
  | configState st => exact ⟨h1, h2⟩
  | configFollowMouse b => exact ⟨h1, h2⟩

theorem popupInv_step (s : Sys) (e : Ev) (h : PopupInv s) : PopupInv (step s e) := by
  cases e with
  | enter =>
    show PopupInv (schedule s)
    simp only [schedule]
    split
    · simpa [PopupInv, unschedule_ctrl, unschedule_popups] using h
    · simpa [PopupInv, unschedule_ctrl, unschedule_popups] using h
  | leave =>
    show PopupInv (hideTip (unschedule s))
    left
    refine ⟨by simp [hideTip_ctrl], ?_⟩
    rw [hideTip_popups]
    rcases h with ⟨ht, hp⟩ | ⟨p, ht, hp⟩ <;>
      simp [unschedule_ctrl, unschedule_popups, ht, hp]
  | buttonPress =>
    show PopupInv (hideTip (unschedule s))
    left
    refine ⟨by simp [hideTip_ctrl], ?_⟩
    rw [hideTip_popups]
    rcases h with ⟨ht, hp⟩ | ⟨p, ht, hp⟩ <;>
      simp [unschedule_ctrl, unschedule_popups, ht, hp]
  | motion => exact h
  | timerFire hdl =>
    show PopupInv (fire s hdl)
    unfold fire
    split
    · unfold showTip
      split
      · simpa [PopupInv, unschedule_ctrl, unschedule_popups] using h
      · split
        case _ p heq =>
          simpa [PopupInv] using h
        case _ heq =>
          right
          refine ⟨s.nextP, rfl, ?_⟩
          rcases h with ⟨ht, hp⟩ | ⟨p, ht, hp⟩
          · show s.popups ++ [s.nextP] = [s.nextP]
            rw [hp]
            rfl
          · rw [show ({ s with pending := s.pending.filter (· ≠ hdl) } : Sys).ctrl.tipwindow =
              s.ctrl.tipwindow from rfl, ht] at heq
            cases heq
    · exact h
  | configState st => simpa [PopupInv] using h
  | configFollowMouse b => simpa [PopupInv] using h

theorem timerInv_run (es : List Ev) (s : Sys) (h : TimerInv s) : TimerInv (run s es) := by
  induction es generalizing s with
  | nil => exact h
  | cons e es ih => exact ih _ (timerInv_step s e h)

theorem popupInv_run (es : List Ev) (s : Sys) (h : PopupInv s) : PopupInv (run s es) := by
  induction es generalizing s with
  | nil => exact h
  | cons e es ih => exact ih _ (popupInv_step s e h)

theorem disabledAt_run (es : List Ev) (s : Sys) (hd : disabledAt s es = true)
    (h1 : s.ctrl.tipwindow = none) (h2 : s.popups = []) (h3 : s.ctrl.tid = none)
    (h4 : s.pending = []) :
    (run s es).created = s.created ∧ (run s es).ctrl.tipwindow = none ∧
    (run s es).popups = [] ∧ (run s es).ctrl.tid = none ∧ (run s es).pending = [] := by
  induction es generalizing s with
  | nil => exact ⟨rfl, h1, h2, h3, h4⟩
  | cons e es ih =>
    rw [run_cons]
    cases e with
    | enter =>
      simp only [disabledAt, Bool.and_eq_true, decide_eq_true_eq] at hd
      obtain ⟨hdis, hrest⟩ := hd
      have hstep : step s .enter = unschedule s := by
        show schedule s = unschedule s
        simp only [schedule]
        rw [if_pos (by simp [unschedule_ctrl, hdis])]
      have hu : unschedule s = { s with ctrl := { s.ctrl with tid := none } } := by
        unfold unschedule
        rw [h3]
      rw [hstep, hu]
      exact ih _ (by rw [hstep, hu] at hrest; exact hrest) h1 h2 rfl h4
    | leave =>
      simp only [disabledAt, Bool.true_and] at hd
      have hc := ih (step s .leave) hd (by simp [step, hideTip_ctrl])
        (by show (hideTip (unschedule s)).popups = []
            rw [hideTip_popups, unschedule_ctrl]
            simp [h1, unschedule_popups, h2])
        (by simp [step, hideTip_ctrl, unschedule_ctrl])
        (by show (hideTip (unschedule s)).pending = []
            rw [hideTip_pending, unschedule_pending, h3]
            exact h4)
      refine ⟨?_, hc.2.1, hc.2.2.1, hc.2.2.2.1, hc.2.2.2.2⟩
      rw [hc.1]
      show (hideTip (unschedule s)).created = s.created
      rw [hideTip_created, unschedule_created]
    | buttonPress =>
      simp only [disabledAt, Bool.true_and] at hd
      have hc := ih (step s .buttonPress) hd (by simp [step, hideTip_ctrl])
        (by show (hideTip (unschedule s)).popups = []
            rw [hideTip_popups, unschedule_ctrl]
            simp [h1, unschedule_popups, h2])
        (by simp [step, hideTip_ctrl, unschedule_ctrl])
        (by show (hideTip (unschedule s)).pending = []
            rw [hideTip_pending, unschedule_pending, h3]
            exact h4)
      refine ⟨?_, hc.2.1, hc.2.2.1, hc.2.2.2.1, hc.2.2.2.2⟩
      rw [hc.1]
      show (hideTip (unschedule s)).created = s.created
      rw [hideTip_created, unschedule_created]
    | motion =>
      simp only [disabledAt, Bool.true_and] at hd
      exact ih s hd h1 h2 h3 h4
    | timerFire hdl =>
      simp only [disabledAt, Bool.and_eq_true, decide_eq_true_eq] at hd
      obtain ⟨-, hrest⟩ := hd
      have hstep : step s (.timerFire hdl) = s := by
        show fire s hdl = s
        unfold fire
        rw [h4]
        simp
      rw [hstep]
      exact ih s (by rw [hstep] at hrest; exact hrest) h1 h2 h3 h4
    | configState st =>
      simp only [disabledAt, Bool.true_and] at hd
      exact ih _ hd h1 h2 h3 h4
    | configFollowMouse b =>
      simp only [disabledAt, Bool.true_and] at hd
      exact ih _ hd h1 h2 h3 h4

theorem run_followMouse (es : List Ev) (s : Sys) :
    (run s es).ctrl.followMouse = s.ctrl.followMouse := by
  induction es generalizing s with
  | nil => rfl
  | cons e es ih => rw [run_cons, ih, step_followMouse]

theorem timerInv_enter_cancels (s : Sys) (h : TimerInv s) (hdl : ℕ)
    (ht : s.ctrl.tid = some hdl) :
    hdl ∉ (step s .enter).pending ∧ hdl ∉ (step s .leave).pending := by
  have hup : (unschedule s).pending = [] := unschedule_pending_of_inv s h
  have hfr : hdl < s.nextT := h.2 hdl ht
  constructor
  · show hdl ∉ (schedule s).pending
    simp only [schedule]
    split
    · rw [hup]
      simp
    · rw [hup]
      simp only [List.nil_append, List.mem_singleton, unschedule_nextT]
      omega
  · show hdl ∉ (hideTip (unschedule s)).pending
    rw [hideTip_pending, hup]
    simp

/-! ## Claims -/

/-- Claim C1, counterexample: at the spec's own concrete scenario
(screen 1000x800, popup 100x30, pointer (950, 780), follow-mouse on), the
overflow condition 780 + 20 + 30 > 800 holds, yet `coords` returns
(900, 740) and not the claimed (900, 720) = (900, 780 - 30 - 30). -/
theorem c1_counterexample :
    ((780 : ℤ) + 20 + 30 > 800) ∧
    coords true 100 30 1000 800 950 780 0 0 = ((900 : ℚ), (740 : ℤ)) ∧
    ¬ ((740 : ℤ) = 780 - 30 - 30) := by
  refine ⟨by decide, by norm_num [coords], by decide⟩

/-- Claim C1 as amended: in follow-mouse mode, when
`pointery + 20 + popupHeight > screenHeight` the flip subtracts from the
already-offset `y = pointery + 20`, so `coords` returns
`y = pointery + 20 - popupHeight - 30 = pointery - popupHeight - 10`
(not `pointery - popupHeight - 30`); the spec's concrete scenario yields
(900, 740). -/
theorem c1_follow_mouse_flip_y :
    (∀ twx twy w h px py rooty mh : ℤ,
      (coords true twx twy w h px py rooty mh).2 =
        if py + 20 + twy > h then py - twy - 10 else py + 20) ∧
    coords true 100 30 1000 800 950 780 0 0 = ((900 : ℚ), (740 : ℤ)) := by
  constructor
  · intro twx twy w h px py rooty mh
    norm_num [coords]
    split_ifs <;> omega
  · norm_num [coords]

/-- Claim C2, counterexample: with popupWidth = 1200 ≥ screenWidth = 1000 and
pointer x = 600, the unclamped `x = 600 - 600 = 0` is not negative, so the
`elif` right-clamp fires and `coords` returns `x = 1000 - 1200 = -200`, not 0:
a popup wider than the screen does not always pin to x = 0. -/
theorem c2_counterexample :
    ((1000 : ℤ) ≤ 1200) ∧
    (coords false 1200 30 1000 800 600 0 0 0).1 = (-200 : ℚ) ∧
    ¬ ((coords false 1200 30 1000 800 600 0 0 0).1 = 0) := by
  refine ⟨by decide, by norm_num [coords], by norm_num [coords]⟩

/-- Claim C2 as amended: the clamp is `if x < 0 ... elif x + twx > w ...`, so
only one bound ever applies.  When `popupWidth ≤ screenWidth` the returned x
lies in `[0, screenWidth - popupWidth]` (this part of the claim holds); when
`popupWidth > screenWidth` the result is 0 only if the unclamped
`pointerx - popupWidth / 2` is negative, and otherwise is the negative value
`screenWidth - popupWidth`. -/
theorem c2_x_clamped :
    (∀ (fm : Bool) (twx twy w h px py rooty mh : ℤ), twx ≤ w →
      0 ≤ (coords fm twx twy w h px py rooty mh).1 ∧
      (coords fm twx twy w h px py rooty mh).1 ≤ (w : ℚ) - (twx : ℚ)) ∧
    (∀ (fm : Bool) (twx twy w h px py rooty mh : ℤ), w < twx →
      (coords fm twx twy w h px py rooty mh).1 =
        if (px : ℚ) - (twx : ℚ) / 2 < 0 then 0 else (w : ℚ) - (twx : ℚ)) := by
  constructor
  · intro fm twx twy w h px py rooty mh hle
    have hle' : (twx : ℚ) ≤ (w : ℚ) := by exact_mod_cast hle
    simp only [coords]
    split_ifs with h1 h2
    · exact ⟨le_refl 0, by linarith⟩
    · exact ⟨by linarith, le_refl _⟩
    · exact ⟨by linarith, by linarith⟩
  · intro fm twx twy w h px py rooty mh hlt
    have hlt' : (w : ℚ) < (twx : ℚ) := by exact_mod_cast hlt
    simp only [coords]
    split_ifs with h1 h2
    · rfl
    · rfl
    · linarith

/-- Claim C2 witness: concrete instances of both halves of
`c2_x_clamped`: with popup width 100 on a 1000-wide screen the x coordinate is
clamped into [0, 900]; with popup width 1200 and pointer x = 100 the
unclamped x is negative and the result follows the amended formula. -/
theorem c2_witness :
    (0 ≤ (coords false 100 30 1000 800 950 780 0 0).1 ∧
      (coords false 100 30 1000 800 950 780 0 0).1 ≤
        (((1000 : ℤ) : ℚ)) - (((100 : ℤ) : ℚ))) ∧
    (coords false 1200 30 1000 800 100 0 0 0).1 =
      if (((100 : ℤ) : ℚ)) - (((1200 : ℤ) : ℚ)) / 2 < 0 then 0
      else (((1000 : ℤ) : ℚ)) - (((1200 : ℤ) : ℚ)) :=
  ⟨c2_x_clamped.1 false 100 30 1000 800 950 780 0 0 (by decide),
   c2_x_clamped.2 false 1200 30 1000 800 100 0 0 0 (by decide)⟩

/-- Claim C3: `configure` with an unrecognized key fails, but not with a
genuine exception naming the key: the code binds the message string to a
local named `KeyError` and raises the plain string, which in Python 3 raises
`TypeError: exceptions must derive from BaseException` — the same keyless
error for `"foo"` as for `"bar"`.  A call with only recognized keys raises
nothing. -/
theorem c3_unknown_key_eval :
    configure (defaultOpts (.str "Your text here") (.int 1500)) [("foo", .int 1)] =
      .error (.typeError "exceptions must derive from BaseException") ∧
    configure (defaultOpts (.str "Your text here") (.int 1500)) [("bar", .int 1)] =
      .error (.typeError "exceptions must derive from BaseException") ∧
    configure (defaultOpts (.str "Your text here") (.int 1500))
        [("state", .str "disabled"), ("bg", .str "red")] =
      .ok (optsSet (optsSet (defaultOpts (.str "Your text here") (.int 1500)) .state
        (.str "disabled")) .bg (.str "red"), .noneV) :=
  ⟨rfl, rfl, rfl⟩

/-- Claim C4: `configure` never returns the option map: the method body has no
`return` statement, so the no-argument call returns Python `None` (not a
dictionary), contradicting the module's own docstring; a call with only
recognized keys also returns `None`. -/
theorem c4_configure_returns_none :
    configure (defaultOpts (.str "Your text here") (.int 1500)) [] =
      .ok (defaultOpts (.str "Your text here") (.int 1500), .noneV) ∧
    PyRet.isDict .noneV = false ∧
    configure (defaultOpts (.str "Your text here") (.int 1500)) [("delay", .int 100)] =
      .ok (optsSet (defaultOpts (.str "Your text here") (.int 1500)) .delay (.int 100),
        .noneV) :=
  ⟨rfl, rfl, rfl⟩

/-- Claim C5: in every event sequence in which the `state` option reads
`'disabled'` at each enter and each timer firing, no popup window is ever
created: the run stays in IDLE throughout — zero popups created, `_tipwindow`
and `_id` still `None`, no popup windows existing and no timer pending. -/
theorem c5_disabled_never_creates_popup :
    ∀ (fm : Bool) (st : TipState) (es : List Ev),
      disabledAt (init fm st) es = true →
      (run (init fm st) es).created = 0 ∧
      (run (init fm st) es).ctrl.tipwindow = none ∧
      (run (init fm st) es).popups = [] ∧
      (run (init fm st) es).ctrl.tid = none ∧
      (run (init fm st) es).pending = [] := by
  intro fm st es hd
  exact disabledAt_run es (init fm st) hd rfl rfl rfl rfl

/-- Claim C5 witness: a controller constructed with `state='disabled'` that is
entered and whose (never-scheduled) timer slot fires creates nothing. -/
theorem c5_witness :
    (run (init false .disabled) [.enter, .timerFire 0]).created = 0 ∧
    (run (init false .disabled) [.enter, .timerFire 0]).ctrl.tipwindow = none ∧
    (run (init false .disabled) [.enter, .timerFire 0]).popups = [] ∧
    (run (init false .disabled) [.enter, .timerFire 0]).ctrl.tid = none ∧
    (run (init false .disabled) [.enter, .timerFire 0]).pending = [] :=
  c5_disabled_never_creates_popup false .disabled [.enter, .timerFire 0] (by decide)

/-- Claim C6: in every reachable state at most one timer is pending, and both
scheduling on pointer enter and the hide path of a leave event cancel the
outstanding timer handle before proceeding, so re-entering before the timer
fires restarts the delay rather than adding a second timer. -/
theorem c6_at_most_one_pending_timer :
    (∀ (fm : Bool) (st : TipState) (es : List Ev),
      (run (init fm st) es).pending.length ≤ 1) ∧
    (∀ (fm : Bool) (st : TipState) (es : List Ev) (hdl : ℕ),
      (run (init fm st) es).ctrl.tid = some hdl →
      hdl ∉ (step (run (init fm st) es) .enter).pending ∧
      hdl ∉ (step (run (init fm st) es) .leave).pending) := by
  constructor
  · intro fm st es
    rcases (timerInv_run es (init fm st) (timerInv_init fm st)).1 with hp | ⟨hdl, -, hp⟩ <;>
      simp [hp]
  · intro fm st es hdl ht
    exact timerInv_enter_cancels (run (init fm st) es)
      (timerInv_run es (init fm st) (timerInv_init fm st)) hdl ht

/-- Claim C6 witness: after construction and one enter, timer 0 is
outstanding; a further enter or leave removes it from the pending queue. -/
theorem c6_witness :
    0 ∉ (step (run (init false .normal) [.enter]) .enter).pending ∧
    0 ∉ (step (run (init false .normal) [.enter]) .leave).pending :=
  c6_at_most_one_pending_timer.2 false .normal [.enter] 0 (by decide)

/-- Claim C7: from any state, a pointer-leave event cancels the pending timer
if one exists and destroys the popup if one is visible, leaving both `_id` and
`_tipwindow` empty — the IDLE state — and a button-press event does exactly
the same (both are bound to `self.leave`). -/
theorem c7_leave_and_press_reset :
    ∀ s : Sys,
      (step s .leave).ctrl.tid = none ∧
      (step s .leave).ctrl.tipwindow = none ∧
      (∀ hdl, s.ctrl.tid = some hdl → hdl ∉ (step s .leave).pending) ∧
      (∀ p, s.ctrl.tipwindow = some p → p ∉ (step s .leave).popups) ∧
      step s .buttonPress = step s .leave := by
  intro s
  refine ⟨?_, ?_, ?_, ?_, rfl⟩
  · show (hideTip (unschedule s)).ctrl.tid = none
    rw [hideTip_ctrl]
    simp [unschedule_ctrl]
  · show (hideTip (unschedule s)).ctrl.tipwindow = none
    rw [hideTip_ctrl]
  · intro hdl ht
    show hdl ∉ (hideTip (unschedule s)).pending
    rw [hideTip_pending, unschedule_pending, ht]
    simp
  · intro p hp
    show p ∉ (hideTip (unschedule s)).popups
    rw [hideTip_popups]
    have htw : (unschedule s).ctrl.tipwindow = some p := by
      rw [unschedule_ctrl]
      simpa using hp
    rw [htw, unschedule_popups]
    simp

/-- Claim C7 witness: a concrete PENDING-and-SHOWN hybrid state (timer 3
outstanding, popup 7 visible) is fully reset by leave, and button press acts
identically. -/
theorem c7_witness :
    (step (⟨⟨.normal, false, false, some 7, some 3⟩, [3], 4, [7], 8, 1⟩ : Sys)
        .leave).ctrl.tid = none ∧
    (step (⟨⟨.normal, false, false, some 7, some 3⟩, [3], 4, [7], 8, 1⟩ : Sys)
        .leave).ctrl.tipwindow = none ∧
    3 ∉ (step (⟨⟨.normal, false, false, some 7, some 3⟩, [3], 4, [7], 8, 1⟩ : Sys)
        .leave).pending ∧
    7 ∉ (step (⟨⟨.normal, false, false, some 7, some 3⟩, [3], 4, [7], 8, 1⟩ : Sys)
        .leave).popups ∧
    step (⟨⟨.normal, false, false, some 7, some 3⟩, [3], 4, [7], 8, 1⟩ : Sys) .buttonPress
      = step (⟨⟨.normal, false, false, some 7, some 3⟩, [3], 4, [7], 8, 1⟩ : Sys) .leave := by
  have h := c7_leave_and_press_reset ⟨⟨.normal, false, false, some 7, some 3⟩, [3], 4, [7], 8, 1⟩
  exact ⟨h.1, h.2.1, h.2.2.1 3 rfl, h.2.2.2.1 7 rfl, h.2.2.2.2⟩

/-- Claim C8: with `followMouse` false, `coords` places the popup below the
parent at `y = rooty + masterheight + 3` unless that position plus the popup
height overflows the screen, in which case it places it above at
`y = rooty - popupHeight - 3`; the spec's concrete scenario (parent at
y = 100, height 20, popup height 30, screen height 800) yields y = 123. -/
theorem c8_anchored_y :
    (∀ twx twy w h px py rooty mh : ℤ,
      (coords false twx twy w h px py rooty mh).2 =
        if rooty + mh + 3 + twy > h then rooty - twy - 3 else rooty + mh + 3) ∧
    (coords false 100 30 1000 800 500 0 100 20).2 = 123 := by
  constructor
  · intro twx twy w h px py rooty mh
    norm_num [coords]
  · norm_num [coords]

/-- Claim C9: `self._follow_mouse` is fixed at construction: whatever sequence
of events (including `configure` calls rewriting the `follow_mouse` option
dictionary entry) runs afterwards, the flag consulted by `motion` and by
`coords` keeps its `__init__` value. -/
theorem c9_follow_mouse_fixed :
    ∀ (fm : Bool) (st : TipState) (es : List Ev),
      (run (init fm st) es).ctrl.followMouse = fm := by
  intro fm st es
  rw [run_followMouse]
  rfl

/-- Claim C10, counterexample: `_show` can run with a popup already visible
and leave the controller changed: after enter, timer fire (popup 0 created),
re-enter (timer 1 scheduled) and `configure(state='disabled')`, running
`_show` clears `_id` from `some 1` to `none` via its disabled-branch
`_unschedule`, so the controller state is not left entirely unchanged. -/
theorem c10_counterexample :
    (run (init false .normal)
        [.enter, .timerFire 0, .enter, .configState .disabled]).ctrl.tipwindow = some 0 ∧
    ¬ ((showTip (run (init false .normal)
          [.enter, .timerFire 0, .enter, .configState .disabled])).ctrl =
        (run (init false .normal)
          [.enter, .timerFire 0, .enter, .configState .disabled]).ctrl) :=
  ⟨by decide, by decide⟩

/-- Claim C10 as amended: if `_show` runs while a popup is visible and the
`state` option is not `'disabled'`, the state is left entirely unchanged; if
it is `'disabled'`, only the timer-handle field is cleared — in either case no
second popup is created and the visible popup is untouched, and consequently
at most one popup window exists per controller at any time. -/
theorem c10_show_with_popup :
    (∀ (s : Sys) (p : ℕ), s.ctrl.tipwindow = some p → s.ctrl.stateOpt ≠ .disabled →
      showTip s = s) ∧
    (∀ (s : Sys) (p : ℕ), s.ctrl.tipwindow = some p →
      (showTip s).created = s.created ∧ (showTip s).popups = s.popups ∧
      (showTip s).ctrl.tipwindow = some p) ∧
    (∀ (fm : Bool) (st : TipState) (es : List Ev),
      (run (init fm st) es).popups.length ≤ 1) := by
  refine ⟨?_, ?_, ?_⟩
  · intro s p hp hd
    unfold showTip
    rw [if_neg hd, hp]
  · intro s p hp
    unfold showTip
    split
    · refine ⟨unschedule_created s, unschedule_popups s, ?_⟩
      rw [unschedule_ctrl]
      simpa using hp
    · rw [hp]
      exact ⟨rfl, rfl, hp⟩
  · intro fm st es
    rcases popupInv_run es (init fm st) (popupInv_init fm st) with ⟨-, hp⟩ | ⟨p, -, hp⟩ <;>
      simp [hp]

/-- Claim C10 witness: in the reachable state with popup 0 visible and state
normal, running `_show` again changes nothing at all. -/
theorem c10_witness :
    showTip (run (init false .normal) [.enter, .timerFire 0]) =
      run (init false .normal) [.enter, .timerFire 0] :=
  c10_show_with_popup.1 (run (init false .normal) [.enter, .timerFire 0]) 0
    (by decide) (by decide)

end ToolTip
